import Mathlib

/-!
Shallow embedding of the TextualStyleTransfer repository
(src/transformer_model.py and src/evaluate.py) and proofs of the
specification claims about it.

Tensors are modelled as nested lists of rationals:
a vector is `List ℚ` (the feature axis), a per-example matrix is
`List (List ℚ)` (positions x features), and a batched tensor is
`List (List (List ℚ))` (batch x positions x features).  Token-id
sequences are `List Nat` per example.  The floating point functions
`exp`, `log` and `sqrt` that torch computes are abstracted as function
parameters, since the properties proved here do not depend on their
values.
-/

abbrev Vec := List ℚ
abbrev Mat := List (List ℚ)
abbrev Tensor3 := List (List (List ℚ))
abbrev Mask := List (List Bool)

/-- Python truthiness of an optional integer: `None` and `0` are falsy,
every other integer is truthy.  Mirrors the guards `if eos_id:` and
`if limit and ...:` in src/evaluate.py. -/
def truthy : Option Nat → Bool
  | none => false
  | some n => n != 0

/-- `np.where(sent_as_np == e)[0]` from src/evaluate.py line 92: the sorted
list of indices of `sent` whose entry equals `e`. -/
def whereEq : List Nat → Nat → List Nat
  | [], _ => []
  | x :: xs, e =>
      let rest := (whereEq xs e).map (· + 1)
      if x = e then 0 :: rest else rest

/-- `sent2str` from src/evaluate.py lines 86-98 (the body after the
`isinstance` type check; the check itself is modelled by
`sent2strChecked` below).  If the eos id is truthy, the sentence is cut
at the first index where the eos id occurs — the source branches on
whether `np.where` found more than one or exactly one occurrence, and in
both branches slices up to the first index (`int(end_id)` on a
one-element array is its single element) — and the surviving ids are
joined with spaces through the `id2word` lookup. -/
def sent2str (sent_as_np : List Nat) (id2word : Nat → String)
    (eos_id : Option Nat := none) : String :=
  let sent :=
    if truthy eos_id then
      let end_id := whereEq sent_as_np (eos_id.getD 0)
      if end_id.length > 1 then sent_as_np.take (end_id.headD 0)
      else if end_id.length = 1 then sent_as_np.take (end_id.headD 0)
      else sent_as_np
    else sent_as_np
  String.intercalate " " (sent.map id2word)

/-- `torch.argmax` over one row of scores: the index of the first maximal
entry.  Used for `torch.argmax(preds, -1)` applied position-wise. -/
def argmaxRow (row : List ℚ) : Nat :=
  (row.foldl
    (fun st v =>
      let best := st.1
      let bestIdx := st.2.1
      let idx := st.2.2
      if v > best then (v, idx, idx + 1) else (best, bestIdx, idx + 1))
    ((row.headD 0), 0, 0)).2.1

/-- `greedy_decode_sent` from src/evaluate.py lines 77-83: arg-max over
the vocabulary axis of a single example's prediction matrix, then
`sent2str` on the resulting id sequence.  Returns the decoded string
together with the id sequence, as the source returns `(decoded_sent, preds)`. -/
def greedy_decode_sent (preds : List (List ℚ)) (id2word : Nat → String)
    (eos_id : Option Nat) : String × List Nat :=
  let predIds := preds.map argmaxRow
  let decoded_sent := sent2str predIds id2word eos_id
  (decoded_sent, predIds)

/-- The Python values `sent2str` may receive: a flat numeric numpy array,
a 2-D numeric numpy array, a flat numpy array of strings, a plain python
list of ints, or a bare int. -/
inductive PyObj where
  | arr1 : List Nat → PyObj
  | arr2 : List (List Nat) → PyObj
  | arrStr : List String → PyObj
  | pyList : List Nat → PyObj
  | pyInt : Nat → PyObj
deriving DecidableEq, Repr

/-- `isinstance(sent_as_np, np.ndarray)`: every numpy array — flat or
not, numeric or not — satisfies it; plain lists and ints do not. -/
def PyObj.isNdarray : PyObj → Bool
  | arr1 _ => true
  | arr2 _ => true
  | arrStr _ => true
  | _ => false

/-- A flat numeric sequence: exactly the 1-D numeric ndarrays. -/
def PyObj.isFlatNumeric : PyObj → Bool
  | arr1 _ => true
  | _ => false

/-- Row indices of the entries of a 2-D array equal to `e`:
`np.where(sample == e)[0]` on a 2-D input yields one row index per
matching element. -/
def whereEqRows : List (List Nat) → Nat → List Nat
  | [], _ => []
  | r :: rs, e => List.replicate (r.count e) 0 ++ (whereEqRows rs e).map (· + 1)

/-- `sent2str` from src/evaluate.py lines 86-98 with its dynamic error
behaviour made explicit.  The defensive check raises `ValueError` exactly
when the input is not a numpy ndarray.  An ndarray then flows on: a flat
numeric array is converted as in `sent2str`; a 2-D array survives the
(row-level) truncation but every remaining row is an unhashable ndarray,
so the first row raises `TypeError` at the `id2word[i]` lookup in the
join (an array left with no rows joins to the empty string); a flat
string array is never truncated (an elementwise comparison of a string
array with an int matches nothing) and its first element raises
`KeyError` in the integer-keyed `id2word` dict. -/
def sent2strChecked (obj : PyObj) (id2word : Nat → String)
    (eos_id : Option Nat := none) : Except String String :=
  if ¬ obj.isNdarray then .error "ValueError" else
  match obj with
  | .arr1 sent => .ok (sent2str sent id2word eos_id)
  | .arr2 rows =>
      let rows :=
        if truthy eos_id then
          let end_id := whereEqRows rows (eos_id.getD 0)
          if end_id.length > 1 then rows.take (end_id.headD 0)
          else if end_id.length = 1 then rows.take (end_id.headD 0)
          else rows
        else rows
      if rows.isEmpty then .ok "" else .error "TypeError"
  | .arrStr l => if l.isEmpty then .ok "" else .error "KeyError"
  | _ => .error "ValueError"

section Sent2StrLemmas

/-- `whereEq` finds an index exactly when the element occurs. -/
theorem whereEq_eq_nil_iff (s : List Nat) (e : Nat) :
    whereEq s e = [] ↔ e ∉ s := by
  induction s with
  | nil => simp [whereEq]
  | cons x xs ih =>
      by_cases hx : x = e
      · subst hx
        simp [whereEq]
      · simp [whereEq, hx, ih, List.map_eq_nil_iff]
        intro h
        exact fun hmem => hx hmem.symm

/-- The head of `whereEq` is the index of the first occurrence. -/
theorem whereEq_headD (s : List Nat) (e : Nat) (h : e ∈ s) :
    (whereEq s e).headD 0 = s.indexOf e := by
  induction s with
  | nil => cases h
  | cons x xs ih =>
      by_cases hx : x = e
      · subst hx
        simp [whereEq, List.indexOf_cons_self]
      · have hmem : e ∈ xs := by
          cases h with
          | head => exact absurd rfl hx
          | tail _ h => exact h
        have hne : whereEq xs e ≠ [] := by
          intro hnil
          exact (whereEq_eq_nil_iff xs e).mp hnil hmem
        have hbeq : (x == e) = false := by
          simp [hx]
        rw [List.indexOf_cons, hbeq]
        simp only [whereEq, hx, if_false, cond_false]
        cases hwe : whereEq xs e with
        | nil => exact absurd hwe hne
        | cons a l =>
            simp [hwe] at ih
            simp [ih hmem]

end Sent2StrLemmas

/-- C4: for every flat id sequence containing the (truthy) end-of-sequence
id at least once, `sent2str` cuts the sequence immediately before the
first occurrence — also when several occurrences exist — and joins the
surviving ids with single spaces through the `id2word` lookup; and
`greedy_decode_sent` is built on `sent2str`, applying it to the arg-max
id sequence of the prediction matrix. -/
theorem sent2str_truncates_at_first_eos
    (sent : List Nat) (id2word : Nat → String) (preds : List (List ℚ))
    (eos : Nat) (he : eos ≠ 0) (hmem : eos ∈ sent) :
    sent2str sent id2word (some eos)
      = String.intercalate " " ((sent.take (sent.indexOf eos)).map id2word)
    ∧ (greedy_decode_sent preds id2word (some eos)).1
      = sent2str (preds.map argmaxRow) id2word (some eos) := by
  refine ⟨?_, rfl⟩
  have ht : truthy (some eos) = true := by simp [truthy, he]
  have hne : whereEq sent eos ≠ [] := by
    intro hnil
    exact (whereEq_eq_nil_iff sent eos).mp hnil hmem
  have hh : (whereEq sent eos).head?.getD 0 = sent.indexOf eos := by
    simpa using whereEq_headD sent eos hmem
  simp only [sent2str, ht, if_true, Option.getD_some]
  rcases hl : (whereEq sent eos).length with _ | n
  · exact absurd (List.length_eq_zero.mp hl) hne
  · cases n with
    | zero => simp [hl, hh]
    | succ m => simp [hl, hh]

/-- C4 witness: the spec's own example — ids [4, 7, 2, eos, 9, 9] with
eos id 3 decode to exactly the ids before the first eos. -/
theorem sent2str_truncates_at_first_eos_witness :
    sent2str [4, 7, 2, 3, 9, 9] (fun n => Nat.repr n) (some 3)
      = String.intercalate " "
          (([4, 7, 2, 3, 9, 9].take ([4, 7, 2, 3, 9, 9].indexOf 3)).map
            (fun n => Nat.repr n))
    ∧ (greedy_decode_sent [[0, 1], [1, 0]] (fun n => Nat.repr n) (some 3)).1
      = sent2str ([[0, 1], [1, 0]].map argmaxRow) (fun n => Nat.repr n) (some 3) :=
  sent2str_truncates_at_first_eos [4, 7, 2, 3, 9, 9] (fun n => Nat.repr n)
    [[0, 1], [1, 0]] 3 (by decide) (by decide)

/-- C5 counterexample: a 2-D numeric ndarray is not a flat numeric
sequence, yet it passes the defensive `isinstance(·, np.ndarray)` check
(the guard does not reject it); the error it eventually hits is the
`TypeError` raised later at the `id2word` join, not the check's
`ValueError` — so a non-flat input is not rejected by the defensive type
check before conversion. -/
theorem sent2str_typecheck_counterexample :
    PyObj.isFlatNumeric (PyObj.arr2 [[1, 2], [3, 4]]) = false
    ∧ PyObj.isNdarray (PyObj.arr2 [[1, 2], [3, 4]]) = true
    ∧ sent2strChecked (PyObj.arr2 [[1, 2], [3, 4]]) (fun _ => "") none
        = .error "TypeError" :=
  ⟨rfl, rfl, rfl⟩

/-- C5 amended: the defensive type check of `sent2str` raises
`ValueError` exactly when the input is not a numpy ndarray; flatness and
numeric dtype are not part of the check, so a non-flat or non-numeric
ndarray passes it and can only fail later, during conversion. -/
theorem sent2str_typecheck_rejects_nonarrays
    (obj : PyObj) (id2word : Nat → String) (eos_id : Option Nat) :
    sent2strChecked obj id2word eos_id = .error "ValueError"
      ↔ obj.isNdarray = false := by
  cases obj with
  | arr1 s => simp [sent2strChecked, PyObj.isNdarray]
  | arr2 rows =>
      simp only [sent2strChecked]
      rw [if_neg (by simp [PyObj.isNdarray])]
      have key : ∀ (b : Bool),
          (if b = true then (Except.ok "" : Except String String)
            else Except.error "TypeError") ≠ Except.error "ValueError" := by
        intro b h
        by_cases hb : b = true
        · rw [if_pos hb] at h
          exact Except.noConfusion h
        · rw [if_neg hb] at h
          exact absurd (Except.error.inj h) (by decide)
      constructor
      · intro h
        exact absurd h (key _)
      · intro h
        exact absurd h (by simp [PyObj.isNdarray])
  | arrStr l =>
      simp only [sent2strChecked]
      rw [if_neg (by simp [PyObj.isNdarray])]
      have key : ∀ (b : Bool),
          (if b = true then (Except.ok "" : Except String String)
            else Except.error "KeyError") ≠ Except.error "ValueError" := by
        intro b h
        by_cases hb : b = true
        · rw [if_pos hb] at h
          exact Except.noConfusion h
        · rw [if_neg hb] at h
          exact absurd (Except.error.inj h) (by decide)
      constructor
      · intro h
        exact absurd h (key _)
      · intro h
        exact absurd h (by simp [PyObj.isNdarray])
  | pyList l => simp [sent2strChecked, PyObj.isNdarray]
  | pyInt n => simp [sent2strChecked, PyObj.isNdarray]

/-- A validation batch as produced by the data pipeline: token-id
sequences and one style label per example. -/
structure Batch where
  text : List (List Nat)
  label : List Nat
deriving DecidableEq, Repr

/-- Modelled from the spec: the `Loss` running accumulator imported from
utils.py, which is not part of src/.  Per the spec it is an append-only
running metric, sum/count based, whose zero-observation value is its
neutral value (zero loss from zero observations, with no division by
zero). -/
structure Loss where
  total : ℚ
  count : Nat
deriving DecidableEq, Repr

def Loss.init : Loss := ⟨0, 0⟩

def Loss.update (l : Loss) (v : ℚ) : Loss := ⟨l.total + v, l.count + 1⟩

def Loss.call (l : Loss) : ℚ :=
  if l.count = 0 then 0 else l.total / (l.count : ℚ)

/-- Modelled from the spec: the `AccuracyRec` running accumulator from
utils.py (not part of src/): token-level accuracy, flattened across
batch and position — a count of positions whose arg-max prediction
equals the target token over a count of observed positions, reporting 0
at zero observations. -/
structure AccuracyRec where
  correct : Nat
  total : Nat
deriving DecidableEq, Repr

def AccuracyRec.init : AccuracyRec := ⟨0, 0⟩

def AccuracyRec.update (a : AccuracyRec) (preds : List (List ℚ))
    (targets : List Nat) : AccuracyRec :=
  let hits :=
    (List.zipWith (fun row t => if argmaxRow row = t then 1 else 0) preds
      targets).sum
  ⟨a.correct + hits, a.total + targets.length⟩

def AccuracyRec.call (a : AccuracyRec) : ℚ :=
  if a.total = 0 then 0 else (a.correct : ℚ) / (a.total : ℚ)

/-- Modelled from the spec: the `AccuracyCls` running accumulator from
utils.py (not part of src/): example-level classification accuracy —
a count of examples whose arg-max classifier prediction equals the label
over a count of observed examples, reporting 0 at zero observations. -/
structure AccuracyCls where
  correct : Nat
  total : Nat
deriving DecidableEq, Repr

def AccuracyCls.init : AccuracyCls := ⟨0, 0⟩

def AccuracyCls.update (a : AccuracyCls) (cls_preds : List (List ℚ))
    (labels : List Nat) : AccuracyCls :=
  let hits :=
    (List.zipWith (fun row t => if argmaxRow row = t then 1 else 0) cls_preds
      labels).sum
  ⟨a.correct + hits, a.total + labels.length⟩

def AccuracyCls.call (a : AccuracyCls) : ℚ :=
  if a.total = 0 then 0 else (a.correct : ℚ) / (a.total : ℚ)

/-- The collaborators `evaluate` receives in src/evaluate.py lines 13-15:
the three models, the three loss criteria, and the mask-construction
collaborator `make_masks` (imported from data.py, external to src/). -/
structure EvalModels where
  model_enc : List (List Nat) → Mask → Tensor3
  model_cls : Tensor3 → List (List ℚ)
  model_dec : Tensor3 → List Nat → Mask → List (List Nat) → Mask → Tensor3
  cls_criteria : List (List ℚ) → List Nat → ℚ
  seq2seq_criteria : List (List ℚ) → List Nat → ℚ
  ent_criteria : List (List ℚ) → ℚ
  make_masks : List (List Nat) → List (List Nat) → Mask × Mask

/-- The process-local running metrics of one evaluation pass
(src/evaluate.py lines 24-29). -/
structure EvalState where
  cls_running_loss : Loss
  rec_running_loss : Loss
  ent_running_loss : Loss
  rec_acc : AccuracyRec
  cls_acc : AccuracyCls
deriving DecidableEq, Repr

def initEvalState : EvalState :=
  ⟨Loss.init, Loss.init, Loss.init, AccuracyRec.init, AccuracyCls.init⟩

/-- One iteration of the evaluation loop, src/evaluate.py lines 36-67:
mask construction, classifier loss on the encoded source, reconstruction
loss between the decoder predictions (flattened to positions x vocab)
and the flat unshifted source ids, entropy loss on the classifier
logits, then the accuracy updates — reconstruction accuracy on
`preds[:, 1:]` against `src[:, :-1]`, classification accuracy on the
classifier logits against the labels. -/
def evalStep (M : EvalModels) (batch : Batch) (st : EvalState) : EvalState :=
  let src := batch.text
  let labels := batch.label
  let masks := M.make_masks src src
  let src_mask := masks.1
  let trg_mask := masks.2
  let encode_out := M.model_enc src src_mask
  let cls_preds := M.model_cls encode_out
  let cls_loss := M.cls_criteria cls_preds labels
  let cls_running_loss := st.cls_running_loss.update cls_loss
  let preds := M.model_dec encode_out labels src_mask src trg_mask
  let rec_loss := M.seq2seq_criteria preds.flatten src.flatten
  let rec_running_loss := st.rec_running_loss.update rec_loss
  let ent_loss := M.ent_criteria cls_preds
  let ent_running_loss := st.ent_running_loss.update ent_loss
  let preds_shifted := (preds.map (fun m => m.drop 1)).flatten
  let src_shifted := (src.map (fun s => s.dropLast)).flatten
  let rec_acc := st.rec_acc.update preds_shifted src_shifted
  let cls_acc := st.cls_acc.update cls_preds labels
  ⟨cls_running_loss, rec_running_loss, ent_running_loss, rec_acc, cls_acc⟩

/-- The batch loop of `evaluate`, src/evaluate.py lines 32-34: before
processing batch `i`, `if params.TEST_MAX_BATCH_SIZE and i ==
params.TEST_MAX_BATCH_SIZE: break` — the cap only fires when it is a
truthy (nonzero) integer. -/
def evalLoop (M : EvalModels) (cap : Nat) :
    Nat → List Batch → EvalState → EvalState
  | _, [], st => st
  | i, b :: bs, st =>
      if cap ≠ 0 ∧ i = cap then st
      else evalLoop M cap (i + 1) bs (evalStep M b st)

/-- The final running-metric state of `evaluate`
(src/evaluate.py lines 13-74), read by the two logging lines. -/
def evaluateState (M : EvalModels) (TEST_MAX_BATCH_SIZE : Nat)
    (data_iter : List Batch) : EvalState :=
  evalLoop M TEST_MAX_BATCH_SIZE 0 data_iter initEvalState

/-- `evaluate` returns the reconstruction-accuracy accumulator
(src/evaluate.py line 74). -/
def evaluate (M : EvalModels) (TEST_MAX_BATCH_SIZE : Nat)
    (data_iter : List Batch) : AccuracyRec :=
  (evaluateState M TEST_MAX_BATCH_SIZE data_iter).rec_acc

/-- The vocabulary collaborator of src/evaluate.py (`TEXT.vocab`):
id-to-token and token-to-id lookups. -/
structure Vocab where
  itos : Nat → String
  stoi : String → Nat

/-- `tensor2text` from src/evaluate.py lines 165-182: per sample, cut at
the first row index where the `<eos>` id occurs (the source branches on
how many matches `np.where` found and slices at the first in both
branches) and join the surviving ids through `itos`. -/
def tensor2text (vocab : Vocab) (tensor : List (List Nat)) : List String :=
  let eos_idx := vocab.stoi "<eos>"
  tensor.map (fun sample =>
    let end_id := whereEq sample eos_idx
    let sample :=
      if end_id.length > 1 then sample.take (end_id.headD 0)
      else if end_id.length = 1 then sample.take (end_id.headD 0)
      else sample
    String.intercalate " " (sample.map vocab.itos))

/-- The style-label flip `(~labels.bool()).long()` of src/evaluate.py
line 205, applied elementwise: 0 becomes 1 and any nonzero label becomes
0. -/
def negLabel (n : Nat) : Nat := if n = 0 then 1 else 0

/-- The batch loop of `generate_sentences`, src/evaluate.py lines
195-216: per batch, build the source mask, flip the labels, run the
generator on the flipped labels, arg-max decode, convert generated and
original sequences to text, collect the original (unflipped) labels, and
break after batch `limit - 1` when `limit` is truthy. -/
def generate_sentencesLoop
    (model_gen : List (List Nat) → Mask → List Nat → Tensor3)
    (make_masks : List (List Nat) → List (List Nat) → Mask × Mask)
    (vocab : Vocab) (limit : Option Nat) :
    Nat → List Batch → List String × List String × List Nat →
      List String × List String × List Nat
  | _, [], acc => acc
  | i, b :: bs, acc =>
      let src := b.text
      let labels := b.label
      let src_mask := (make_masks src src).1
      let neg_labels := labels.map negLabel
      let preds := model_gen src src_mask neg_labels
      let predIds := preds.map (fun m => m.map argmaxRow)
      let acc2 := (acc.1 ++ tensor2text vocab predIds,
                   acc.2.1 ++ tensor2text vocab src,
                   acc.2.2 ++ labels)
      if truthy limit ∧ i = limit.getD 0 - 1 then acc2
      else generate_sentencesLoop model_gen make_masks vocab limit (i + 1) bs
        acc2

/-- `generate_sentences` from src/evaluate.py lines 184-217: returns the
generated sentences, the original sentences and the original labels. -/
def generate_sentences
    (model_gen : List (List Nat) → Mask → List Nat → Tensor3)
    (make_masks : List (List Nat) → List (List Nat) → Mask × Mask)
    (vocab : Vocab) (data_iter : List Batch) (limit : Option Nat := none) :
    List String × List String × List Nat :=
  generate_sentencesLoop model_gen make_masks vocab limit 0 data_iter
    ([], [], [])

/-- C10: the eos truncation of `sent2str` fires only on a truthy eos id:
with `None` or `0` the whole sequence is joined, with no truncation even
when the id value occurs in the sequence. -/
theorem sent2str_no_truncation_on_falsy_eos
    (sent : List Nat) (id2word : Nat → String) :
    sent2str sent id2word none = String.intercalate " " (sent.map id2word)
    ∧ sent2str sent id2word (some 0)
        = String.intercalate " " (sent.map id2word) :=
  ⟨rfl, rfl⟩


/-- C2: in every iteration of the evaluation loop the reconstruction
loss compares the full, unshifted prediction tensor (flattened to
positions x vocabulary) against the full, unshifted source ids, while
the reconstruction accuracy is updated on the shifted pair — the
predictions with their first position dropped against the source with
its last token dropped. -/
theorem evaluate_rec_loss_unshifted_acc_shifted
    (M : EvalModels) (b : Batch) (st : EvalState) :
    (evalStep M b st).rec_running_loss
        = st.rec_running_loss.update
            (M.seq2seq_criteria
              (M.model_dec (M.model_enc b.text (M.make_masks b.text b.text).1)
                b.label (M.make_masks b.text b.text).1 b.text
                (M.make_masks b.text b.text).2).flatten
              b.text.flatten)
    ∧ (evalStep M b st).rec_acc
        = st.rec_acc.update
            ((M.model_dec (M.model_enc b.text (M.make_masks b.text b.text).1)
                b.label (M.make_masks b.text b.text).1 b.text
                (M.make_masks b.text b.text).2).map (fun m => m.drop 1)).flatten
            ((b.text.map (fun s => s.dropLast)).flatten) :=
  ⟨rfl, rfl⟩

/-- With a cap of 0 the break guard of the evaluation loop is falsy, so
every batch is processed: each loss accumulator counts one observation
per batch. -/
theorem evalLoop_counts_cap_zero (M : EvalModels) :
    ∀ (bs : List Batch) (i : Nat) (st : EvalState),
      (evalLoop M 0 i bs st).cls_running_loss.count
          = st.cls_running_loss.count + bs.length
      ∧ (evalLoop M 0 i bs st).rec_running_loss.count
          = st.rec_running_loss.count + bs.length := by
  intro bs
  induction bs with
  | nil =>
      intro i st
      simp [evalLoop]
  | cons b bs ih =>
      intro i st
      simp only [evalLoop]
      rw [if_neg (by simp)]
      rcases ih (i + 1) (evalStep M b st) with ⟨h1, h2⟩
      constructor
      · rw [h1]
        show st.cls_running_loss.count + 1 + bs.length
            = st.cls_running_loss.count + (b :: bs).length
        simp only [List.length_cons]
        omega
      · rw [h2]
        show st.rec_running_loss.count + 1 + bs.length
            = st.rec_running_loss.count + (b :: bs).length
        simp only [List.length_cons]
        omega

/-- A concrete instantiation of the evaluation collaborators, with
constant models and criteria, used to run the loop on explicit
batches. -/
def constModels : EvalModels where
  model_enc := fun _ _ => []
  model_cls := fun _ => []
  model_dec := fun _ _ _ _ _ => []
  cls_criteria := fun _ _ => 1
  seq2seq_criteria := fun _ _ => 1
  ent_criteria := fun _ => 1
  make_masks := fun _ _ => ([], [])

/-- C3 counterexample: with `params.TEST_MAX_BATCH_SIZE = 0` and a
one-batch validation stream, `evaluate` processes that batch — the guard
`if params.TEST_MAX_BATCH_SIZE and ...` is falsy at 0, so the cap never
fires — and the running classification loss counts one observation and
reports 1, not a neutral value from zero observations. -/
theorem evaluate_cap_zero_counterexample :
    (evaluateState constModels 0 [⟨[[1, 2]], [0]⟩]).cls_running_loss.count = 1
    ∧ (evaluateState constModels 0 [⟨[[1, 2]], [0]⟩]).cls_running_loss.call
        = 1 := by
  constructor
  · rfl
  · norm_num [evaluateState, evalLoop, evalStep, constModels, initEvalState,
      Loss.init, Loss.update, Loss.call]

/-- C3 amended: a cap of 0 disables the maximum-batch-count check (its
guard is falsy), so `evaluate` processes every batch of the stream; only
when the stream itself is empty does no batch process, and then every
running metric — the three loss accumulators and the two accuracy
accumulators — reports its neutral value 0, with no division by zero. -/
theorem evaluate_cap_zero_disables_cap (M : EvalModels) (cap : Nat)
    (batches : List Batch) (hcap : cap = 0) :
    (evaluateState M cap batches).cls_running_loss.count = batches.length
    ∧ (evaluateState M cap batches).rec_running_loss.count = batches.length
    ∧ (batches = [] →
        (evaluateState M cap batches).cls_running_loss.call = 0
        ∧ (evaluateState M cap batches).rec_running_loss.call = 0
        ∧ (evaluateState M cap batches).ent_running_loss.call = 0
        ∧ (evaluateState M cap batches).rec_acc.call = 0
        ∧ (evaluateState M cap batches).cls_acc.call = 0) := by
  subst hcap
  rcases evalLoop_counts_cap_zero M batches 0 initEvalState with ⟨h1, h2⟩
  refine ⟨by simpa [evaluateState, initEvalState, Loss.init] using h1,
    by simpa [evaluateState, initEvalState, Loss.init] using h2, ?_⟩
  intro hb
  subst hb
  exact ⟨rfl, rfl, rfl, rfl, rfl⟩

/-- C3 amended witness: on the empty stream with cap 0, no batch is
processed and all five running metrics report 0. -/
theorem evaluate_cap_zero_disables_cap_witness :
    (evaluateState constModels 0 ([] : List Batch)).cls_running_loss.count = 0
    ∧ (evaluateState constModels 0 ([] : List Batch)).cls_running_loss.call = 0
    ∧ (evaluateState constModels 0 ([] : List Batch)).rec_acc.call = 0 :=
  ⟨(evaluate_cap_zero_disables_cap constModels 0 [] rfl).1,
   ((evaluate_cap_zero_disables_cap constModels 0 [] rfl).2.2 rfl).1,
   ((evaluate_cap_zero_disables_cap constModels 0 [] rfl).2.2 rfl).2.2.2.1⟩

/-- With no batch limit, the labels collected by
`generate_sentences` are the incoming accumulator followed by the labels
of every batch, in order. -/
theorem genLoop_labels
    (mg : List (List Nat) → Mask → List Nat → Tensor3)
    (mm : List (List Nat) → List (List Nat) → Mask × Mask) (v : Vocab) :
    ∀ (bs : List Batch) (i : Nat)
      (acc : List String × List String × List Nat),
      (generate_sentencesLoop mg mm v none i bs acc).2.2
        = acc.2.2 ++ (bs.map Batch.label).flatten := by
  intro bs
  induction bs with
  | nil =>
      intro i acc
      simp [generate_sentencesLoop]
  | cons b bs ih =>
      intro i acc
      simp only [generate_sentencesLoop]
      rw [if_neg (by simp [truthy])]
      rw [ih]
      simp [List.append_assoc]

/-- C8: the style-label flip `(~labels.bool()).long()` is an involution
on binary labels, and the original-labels output of
`generate_sentences` is exactly the concatenation of the incoming batch
labels, untouched by the flip. -/
theorem style_flip_involution_and_labels_unmodified
    (l : Nat) (hl : l ≤ 1)
    (model_gen : List (List Nat) → Mask → List Nat → Tensor3)
    (make_masks : List (List Nat) → List (List Nat) → Mask × Mask)
    (vocab : Vocab) (data_iter : List Batch) :
    negLabel (negLabel l) = l
    ∧ (generate_sentences model_gen make_masks vocab data_iter none).2.2
        = (data_iter.map Batch.label).flatten := by
  constructor
  · have hl2 : l = 0 ∨ l = 1 := by omega
    rcases hl2 with h | h <;> subst h <;> rfl
  · simpa using genLoop_labels model_gen make_masks vocab data_iter 0
      ([], [], [])

/-- C8 witness: flipping label 1 twice gives 1 back, and on a concrete
two-batch stream the collected original labels are the batch labels in
order. -/
theorem style_flip_involution_witness :
    negLabel (negLabel 1) = 1
    ∧ (generate_sentences (fun _ _ _ => []) (fun _ _ => ([], []))
        ⟨fun _ => "w", fun _ => 0⟩
        [⟨[[5]], [1]⟩, ⟨[[6]], [0]⟩] none).2.2
      = ([⟨[[5]], [1]⟩, ⟨[[6]], [0]⟩].map Batch.label).flatten :=
  style_flip_involution_and_labels_unmodified 1 (by decide)
    (fun _ _ _ => []) (fun _ _ => ([], [])) ⟨fun _ => "w", fun _ => 0⟩
    [⟨[[5]], [1]⟩, ⟨[[6]], [0]⟩]

/-- Dot product of two feature vectors. -/
def dot (a b : Vec) : ℚ := (List.zipWith (· * ·) a b).sum

/-- `y = x Aᵀ + b` applied to one row, as `torch.nn.Linear` computes it:
the weight matrix holds one row per output feature. -/
def matVec (W : Mat) (x : Vec) : Vec := W.map (fun w => dot w x)

/-- `torch.nn.Linear` applied position-wise to a matrix of row
vectors. -/
def linearF (W : Mat) (b : Vec) (x : Mat) : Mat :=
  x.map (fun row => List.zipWith (· + ·) (matVec W row) b)

/-- `Generator.forward` from src/transformer_model.py lines 48-56:
`F.log_softmax(self.proj(x), dim=-1)` — a linear projection to
vocabulary size followed by log-softmax over the vocabulary axis,
`z_i - log (sum_j exp z_j)`, with `exp` and `log` abstracted as the
function parameters `expF` and `logF`. -/
def Generator.forward (expF logF : ℚ → ℚ) (W : Mat) (b : Vec)
    (x : Tensor3) : Tensor3 :=
  x.map (fun m =>
    (linearF W b m).map (fun row =>
      row.map (fun v => v - logF ((row.map expF).sum))))

/-- `torch.cat(·, ·, dim=1)`: concatenation along the timestep axis of a
batched tensor. -/
def cat1 (a b : Tensor3) : Tensor3 := List.zipWith (· ++ ·) a b

/-- `t[:, :-1, :]`: drop the last timestep of every example. -/
def dropLastTimestep (t : Tensor3) : Tensor3 := t.map List.dropLast

/-- `StyleDecoder.forward` from src/transformer_model.py lines 279-298.
`style_preds` is the usual 1-D label batch, for which
`self.style_embed(style_preds).unsqueeze(1)` is already the
(batch, 1, D) one-token sequence `add_embadding` and the two
rank-sniffing branches do not fire.  The style token is concatenated
before the encoder memory and the last memory state dumped, the same
token is concatenated before the embedded target and its last state
dumped, then the decoder stack and the generator run. -/
def StyleDecoder.forward
    (decoder : Tensor3 → Tensor3 → Mask → Mask → Tensor3)
    (src_embed : List (List Nat) → Tensor3)
    (style_embed : Nat → Vec)
    (generator : Tensor3 → Tensor3)
    (enc_out : Tensor3) (style_preds : List Nat) (src_mask : Mask)
    (tgt : List (List Nat)) (tgt_mask : Mask) : Tensor3 :=
  let add_embadding : Tensor3 := style_preds.map (fun l => [style_embed l])
  let memory := cat1 add_embadding enc_out
  let memory := dropLastTimestep memory
  let tgt_modified := cat1 add_embadding (src_embed tgt)
  let tgt_modified := dropLastTimestep tgt_modified
  let dec_out := decoder tgt_modified memory src_mask tgt_mask
  generator dec_out

/-- `EncoderDecoder.decode` from src/transformer_model.py lines 37-38. -/
def EncoderDecoder.decode
    (decoder : Tensor3 → Tensor3 → Mask → Mask → Tensor3)
    (tgt_embed : List (List Nat) → Tensor3)
    (memory : Tensor3) (src_mask : Mask) (tgt : List (List Nat))
    (tgt_mask : Mask) : Tensor3 :=
  decoder (tgt_embed tgt) memory src_mask tgt_mask

/-- `EncoderDecoder.decode_with_style` from src/transformer_model.py
lines 40-45: the style embedding is concatenated AFTER the encoder
output (`torch.cat((encode_out, style), 1)`), then the last state is
dumped. -/
def EncoderDecoder.decode_with_style
    (decoder : Tensor3 → Tensor3 → Mask → Mask → Tensor3)
    (tgt_embed : List (List Nat) → Tensor3)
    (style_embed : Nat → Vec)
    (encode_out : Tensor3) (style_preds : List Nat) (src_mask : Mask)
    (tgt : List (List Nat)) (tgt_mask : Mask) : Tensor3 :=
  let memory := cat1 encode_out (style_preds.map (fun l => [style_embed l]))
  let memory := dropLastTimestep memory
  decoder (tgt_embed tgt) memory src_mask tgt_mask

/-- Prepending a one-token style sequence and dropping the last timestep,
expressed pair-wise. -/
theorem dropLast_cat1_map (f : Nat → Vec) (ls : List Nat) (es : Tensor3) :
    dropLastTimestep (cat1 (ls.map (fun l => [f l])) es)
      = List.zipWith (fun l e => (f l :: e).dropLast) ls es := by
  unfold dropLastTimestep cat1
  rw [List.zipWith_map_left, List.map_zipWith]
  rfl

/-- Prepending one token and dropping the last one preserves every
per-example timestep count. -/
theorem zipWith_dropLast_cons_lengths (f : Nat → Vec) :
    ∀ (ls : List Nat) (es : Tensor3), ls.length = es.length →
      (List.zipWith (fun l e => (f l :: e).dropLast) ls es).map List.length
        = es.map List.length := by
  intro ls
  induction ls with
  | nil =>
      intro es h
      cases es with
      | nil => rfl
      | cons e es => simp at h
  | cons l ls ih =>
      intro es h
      cases es with
      | nil => simp at h
      | cons e es =>
          simp only [List.zipWith_cons_cons, List.map_cons]
          rw [ih es (by simpa using h)]
          congr 1
          simp

/-- C1: `StyleDecoder.forward` embeds the style label into one vector
per example, reshapes it to a one-token sequence, prepends it to the
encoder memory and drops the memory's last timestep (so every example's
memory length is unchanged), independently prepends the same style
vector to the embedded target and drops its last timestep (also
length-preserving), runs the decoder stack on the modified target
against the modified memory, and applies the Generator — the
log-softmax of the vocabulary projection — last. -/
theorem style_decoder_prepend_truncate
    (decoder : Tensor3 → Tensor3 → Mask → Mask → Tensor3)
    (src_embed : List (List Nat) → Tensor3)
    (style_embed : Nat → Vec) (expF logF : ℚ → ℚ) (W : Mat) (bv : Vec)
    (enc_out : Tensor3) (style_preds : List Nat) (src_mask : Mask)
    (tgt : List (List Nat)) (tgt_mask : Mask)
    (hmem : style_preds.length = enc_out.length)
    (htgt : style_preds.length = (src_embed tgt).length) :
    StyleDecoder.forward decoder src_embed style_embed
        (Generator.forward expF logF W bv) enc_out style_preds src_mask tgt
        tgt_mask
      = Generator.forward expF logF W bv
          (decoder
            (List.zipWith (fun l e => (style_embed l :: e).dropLast)
              style_preds (src_embed tgt))
            (List.zipWith (fun l e => (style_embed l :: e).dropLast)
              style_preds enc_out)
            src_mask tgt_mask)
    ∧ (dropLastTimestep
        (cat1 (style_preds.map (fun l => [style_embed l])) enc_out)).map
          List.length
        = enc_out.map List.length
    ∧ (dropLastTimestep
        (cat1 (style_preds.map (fun l => [style_embed l]))
          (src_embed tgt))).map List.length
        = (src_embed tgt).map List.length := by
  refine ⟨?_, ?_, ?_⟩
  · simp only [StyleDecoder.forward]
    rw [dropLast_cat1_map, dropLast_cat1_map]
  · rw [dropLast_cat1_map]
    exact zipWith_dropLast_cons_lengths style_embed style_preds enc_out hmem
  · rw [dropLast_cat1_map]
    exact zipWith_dropLast_cons_lengths style_embed style_preds
      (src_embed tgt) htgt

/-- C1 witness: a concrete one-example instance — one style label, a
two-timestep encoder output, a one-token target. -/
theorem style_decoder_prepend_truncate_witness :
    StyleDecoder.forward (fun tm mem _ _ => tm ++ mem) (fun _ => [[[5]]])
        (fun l => [(l : ℚ)]) (Generator.forward id id [[1]] [0])
        [[[1], [2]]] [0] [] [[7]] []
      = Generator.forward id id [[1]] [0]
          ((fun (tm mem : Tensor3) (_ _ : Mask) => tm ++ mem)
            (List.zipWith (fun l e => (([(l : ℚ)] : Vec) :: e).dropLast)
              [0] [[[5]]])
            (List.zipWith (fun l e => (([(l : ℚ)] : Vec) :: e).dropLast)
              [0] [[[1], [2]]])
            [] [])
    ∧ (dropLastTimestep
        (cat1 ([0].map (fun l => [([(l : ℚ)] : Vec)])) [[[1], [2]]])).map
          List.length
        = ([[[1], [2]]] : Tensor3).map List.length
    ∧ (dropLastTimestep
        (cat1 ([0].map (fun l => [([(l : ℚ)] : Vec)])) [[[5]]])).map
          List.length
        = ([[[5]]] : Tensor3).map List.length :=
  style_decoder_prepend_truncate (fun tm mem _ _ => tm ++ mem)
    (fun _ => [[[5]]]) (fun l => [(l : ℚ)]) id id [[1]] [0]
    [[[1], [2]]] [0] [] [[7]] [] rfl rfl

/-- Concatenating a one-token style sequence after each example and then
dropping the last timestep gives every example back unchanged. -/
theorem cat_after_dropLast_id (f : Nat → Vec) :
    ∀ (es : Tensor3) (ls : List Nat), ls.length = es.length →
      dropLastTimestep (cat1 es (ls.map (fun l => [f l]))) = es := by
  intro es
  induction es with
  | nil =>
      intro ls h
      cases ls with
      | nil => rfl
      | cons l ls => simp at h
  | cons e es ih =>
      intro ls h
      cases ls with
      | nil => simp at h
      | cons l ls =>
          simp only [List.map_cons, cat1, dropLastTimestep,
            List.zipWith_cons_cons]
          have ih2 := ih ls (by simpa using h)
          simp only [cat1, dropLastTimestep] at ih2
          rw [ih2]
          simp

/-- C9: `decode_with_style` concatenates the style embedding after (not
before) the encoder output and then drops the last timestep, so the
memory actually handed to the decoder is the unmodified encoder output,
and `decode_with_style` returns exactly what plain `decode` returns, for
every style label batch. -/
theorem decode_with_style_eq_decode
    (decoder : Tensor3 → Tensor3 → Mask → Mask → Tensor3)
    (tgt_embed : List (List Nat) → Tensor3)
    (style_embed : Nat → Vec)
    (encode_out : Tensor3) (style_preds : List Nat) (src_mask : Mask)
    (tgt : List (List Nat)) (tgt_mask : Mask)
    (hB : style_preds.length = encode_out.length)
    (_hne : ∀ ex ∈ encode_out, ex ≠ []) :
    dropLastTimestep
        (cat1 encode_out (style_preds.map (fun l => [style_embed l])))
      = encode_out
    ∧ EncoderDecoder.decode_with_style decoder tgt_embed style_embed
        encode_out style_preds src_mask tgt tgt_mask
      = EncoderDecoder.decode decoder tgt_embed encode_out src_mask tgt
          tgt_mask := by
  have key := cat_after_dropLast_id style_embed encode_out style_preds hB
  refine ⟨key, ?_⟩
  simp only [EncoderDecoder.decode_with_style, EncoderDecoder.decode]
  rw [key]

/-- C9 witness: a concrete one-example instance with a nonempty encoder
output. -/
theorem decode_with_style_eq_decode_witness :
    dropLastTimestep
        (cat1 [[[1], [2]]] ([1].map (fun l => [([(l : ℚ)] : Vec)])))
      = [[[1], [2]]]
    ∧ EncoderDecoder.decode_with_style (fun tm mem _ _ => tm ++ mem)
        (fun _ => []) (fun l => [(l : ℚ)]) [[[1], [2]]] [1] [] [[7]] []
      = EncoderDecoder.decode (fun tm mem _ _ => tm ++ mem) (fun _ => [])
          [[[1], [2]]] [] [[7]] [] :=
  decode_with_style_eq_decode (fun tm mem _ _ => tm ++ mem) (fun _ => [])
    (fun l => [(l : ℚ)]) [[[1], [2]]] [1] [] [[7]] [] rfl
    (by
      intro ex hex
      simp at hex
      simp [hex])

/-- Row-wise softmax over the key axis, `F.softmax(scores, dim=-1)`,
with `exp` abstracted as `expF`. -/
def softmaxRow (expF : ℚ → ℚ) (row : Vec) : Vec :=
  let e := row.map expF
  e.map (fun v => v / e.sum)

/-- The columns of a matrix (used to express `torch.matmul` row-by-
column). -/
def colsOf (m : Mat) : Mat :=
  (List.range ((m.headD []).length)).map (fun j => m.map (fun row => row.getD j 0))

/-- `torch.matmul` of two 2-D matrices. -/
def matMul (A B : Mat) : Mat :=
  A.map (fun row => (colsOf B).map (fun col => dot row col))

/-- `attention` from src/transformer_model.py lines 140-150: scaled
dot-product attention.  `d_k = query.size(-1)`; scores are
`q · kᵀ / sqrt(d_k)` with `sqrt` abstracted as `sqrtF`; where the mask
is 0 the score is filled with `-1e9`; softmax normalizes across the key
axis; optional dropout acts elementwise on the attention distribution;
the result is `(p_attn · value, p_attn)`. -/
def attention (expF : ℚ → ℚ) (sqrtF : Nat → ℚ) (query key value : Mat)
    (mask : Option (List (List Bool)) := none)
    (dropout : Option (ℚ → ℚ) := none) : Mat × Mat :=
  let d_k := (query.headD []).length
  let scores := query.map (fun q => key.map (fun k => dot q k / sqrtF d_k))
  let scores :=
    match mask with
    | none => scores
    | some m =>
        List.zipWith
          (fun srow mrow =>
            List.zipWith
              (fun (s : ℚ) (b : Bool) => if b then s else -(1000000000 : ℚ))
              srow mrow)
          scores m
  let p_attn := scores.map (softmaxRow expF)
  let p_attn :=
    match dropout with
    | none => p_attn
    | some d => p_attn.map (fun r => r.map d)
  (matMul p_attn value, p_attn)

/-- Split a row vector into consecutive chunks of size `k`:
the per-position effect of `view(nbatches, -1, h, d_k)`. -/
def chunkList (k : Nat) : List ℚ → List (List ℚ)
  | [] => []
  | x :: xs =>
      if _h : k = 0 then []
      else List.take k (x :: xs) :: chunkList k (List.drop k (x :: xs))
termination_by l => l.length
decreasing_by
  simp only [List.length_drop, List.length_cons]
  omega

/-- `l(x).view(nbatches, -1, h, d_k).transpose(1, 2)` per example: head
`j` keeps, at every position, the `j`-th chunk of that position's
projected row. -/
def headsOf (h d_k : Nat) (m : Mat) : List Mat :=
  (List.range h).map (fun j => m.map (fun row => (chunkList d_k row).getD j []))

/-- `x.transpose(1, 2).contiguous().view(nbatches, -1, h * d_k)` per
example: at every position, concatenate that position's row across all
heads. -/
def recombineHeads (heads : List Mat) : Mat :=
  (List.range ((heads.headD []).length)).map
    (fun i => (heads.map (fun m => m.getD i [])).flatten)

/-- The state built by `MultiHeadedAttention.__init__`
(src/transformer_model.py lines 154-163). -/
structure MultiHeadedAttentionParams where
  d_k : Nat
  h : Nat
deriving DecidableEq, Repr

/-- `MultiHeadedAttention.__init__`: `assert d_model % h == 0`, then
`d_k = d_model // h`.  Construction fails (returns `none`) when the
assertion fails; with `h = 0` the Python `%` itself raises
`ZeroDivisionError`, also a construction-time fatal error. -/
def MultiHeadedAttention.construct (h d_model : Nat) :
    Option MultiHeadedAttentionParams :=
  if h = 0 then none
  else if d_model % h = 0 then some ⟨d_model / h, h⟩ else none

/-- `MultiHeadedAttention.forward` (src/transformer_model.py lines
165-184) on a single example: project query/key/value through the first
three linear layers, split into `h` heads of width `d_k`, run
`attention` per head (the same mask for every head, as
`mask.unsqueeze(1)` broadcasts it), concatenate the heads back and apply
the final linear layer. -/
def MultiHeadedAttention.forwardOne (expF : ℚ → ℚ) (sqrtF : Nat → ℚ)
    (dropout : Option (ℚ → ℚ)) (h d_k : Nat)
    (Wq : Mat) (bq : Vec) (Wk : Mat) (bk : Vec) (Wv : Mat) (bv : Vec)
    (Wo : Mat) (bo : Vec)
    (query key value : Mat) (mask : Option (List (List Bool))) : Mat :=
  let q := headsOf h d_k (linearF Wq bq query)
  let k := headsOf h d_k (linearF Wk bk key)
  let v := headsOf h d_k (linearF Wv bv value)
  let x := (List.range h).map
    (fun j =>
      (attention expF sqrtF (q.getD j []) (k.getD j []) (v.getD j []) mask
        dropout).1)
  linearF Wo bo (recombineHeads x)

def zipWith3 {α β γ δ : Type} (f : α → β → γ → δ) :
    List α → List β → List γ → List δ
  | a :: as, b :: bs, c :: cs => f a b c :: zipWith3 f as bs cs
  | _, _, _ => []

def zipWith4 {α β γ δ ε : Type} (f : α → β → γ → δ → ε) :
    List α → List β → List γ → List δ → List ε
  | a :: as, b :: bs, c :: cs, d :: ds => f a b c d :: zipWith4 f as bs cs ds
  | _, _, _, _ => []

/-- `MultiHeadedAttention.forward` on a batch: the per-example forward
applied example-wise, with the (optional) mask batched alongside. -/
def MultiHeadedAttention.forward (expF : ℚ → ℚ) (sqrtF : Nat → ℚ)
    (dropout : Option (ℚ → ℚ)) (h d_k : Nat)
    (Wq : Mat) (bq : Vec) (Wk : Mat) (bk : Vec) (Wv : Mat) (bv : Vec)
    (Wo : Mat) (bo : Vec)
    (query key value : Tensor3)
    (mask : Option (List (List (List Bool)))) : Tensor3 :=
  match mask with
  | none =>
      zipWith3
        (fun q k v =>
          MultiHeadedAttention.forwardOne expF sqrtF dropout h d_k Wq bq Wk bk
            Wv bv Wo bo q k v none)
        query key value
  | some ms =>
      zipWith4
        (fun q k v m =>
          MultiHeadedAttention.forwardOne expF sqrtF dropout h d_k Wq bq Wk bk
            Wv bv Wo bo q k v (some m))
        query key value ms

/-- The shape of a batched tensor: per example, the list of per-position
row widths (its length is the example's timestep count). -/
def tensorShape (t : Tensor3) : List (List Nat) :=
  t.map (fun m => m.map List.length)

/-- Two maps agree when the functions agree on every member. -/
theorem map_congr_mem {α β : Type} {f g : α → β} :
    ∀ (l : List α), (∀ a ∈ l, f a = g a) → l.map f = l.map g := by
  intro l
  induction l with
  | nil => intro _; rfl
  | cons x xs ih =>
      intro h
      simp only [List.map_cons]
      rw [h x (by simp), ih (fun a ha => h a (by simp [ha]))]

/-- Mapping a constant function is replication. -/
theorem map_const_replicate {α β : Type} (l : List α) (b : β) :
    l.map (fun _ => b) = List.replicate l.length b := by
  induction l with
  | nil => rfl
  | cons x xs ih => simp [ih, List.replicate_succ]

/-- Every output row of a linear layer has the layer's output width. -/
theorem linearF_shape (W : Mat) (b : Vec) (x : Mat) :
    (linearF W b x).map List.length = x.map (fun _ => min W.length b.length) := by
  simp [linearF, matVec, Function.comp_def, List.length_zipWith,
    List.length_map]

/-- The attention output has one row per query position (unmasked
case). -/
theorem attention_length_none (expF : ℚ → ℚ) (sqrtF : Nat → ℚ) (q k v : Mat)
    (dropout : Option (ℚ → ℚ)) :
    (attention expF sqrtF q k v none dropout).1.length = q.length := by
  cases dropout <;> simp [attention, matMul]

/-- The attention output has one row per query position covered by the
mask. -/
theorem attention_length_some (expF : ℚ → ℚ) (sqrtF : Nat → ℚ)
    (q k v : Mat) (m : List (List Bool)) (dropout : Option (ℚ → ℚ)) :
    (attention expF sqrtF q k v (some m) dropout).1.length
      = min q.length m.length := by
  cases dropout <;> simp [attention, matMul]

theorem recombineHeads_length (heads : List Mat) :
    (recombineHeads heads).length = (heads.headD []).length := by
  simp [recombineHeads]

theorem range_succ_map_headD {α : Type} (f : Nat → α) (n : Nat) (d : α) :
    (((List.range (n + 1)).map f).headD d) = f 0 := by
  rw [List.range_succ_eq_map]
  rfl

theorem range_succ_map_getD {α : Type} (f : Nat → α) (n : Nat) (d : α) :
    (((List.range (n + 1)).map f).getD 0 d) = f 0 := by
  rw [List.range_succ_eq_map]
  rfl

/-- Per example, `MultiHeadedAttention.forwardOne` preserves the shape
of its query: one output row per query position, each of width `D`
(the final linear layer has `D` output features). -/
theorem forwardOne_shape (expF : ℚ → ℚ) (sqrtF : Nat → ℚ)
    (dropout : Option (ℚ → ℚ)) (h d_k D : Nat) (hh : h ≠ 0)
    (Wq : Mat) (bq : Vec) (Wk : Mat) (bk : Vec) (Wv : Mat) (bv : Vec)
    (Wo : Mat) (bo : Vec) (hWo : Wo.length = D) (hbo : bo.length = D)
    (query key value : Mat) (mask : Option (List (List Bool)))
    (hq : ∀ r ∈ query, r.length = D)
    (hm : ∀ m, mask = some m → m.length = query.length) :
    (MultiHeadedAttention.forwardOne expF sqrtF dropout h d_k Wq bq Wk bk Wv
        bv Wo bo query key value mask).map List.length
      = query.map List.length := by
  obtain ⟨n, rfl⟩ : ∃ n, h = n + 1 := ⟨h - 1, by omega⟩
  have hrhs : query.map List.length = query.map (fun _ => D) :=
    map_congr_mem query hq
  rw [hrhs]
  simp only [MultiHeadedAttention.forwardOne]
  rw [linearF_shape, hWo, hbo, min_self]
  rw [map_const_replicate, map_const_replicate]
  congr 1
  rw [recombineHeads_length]
  rw [range_succ_map_headD]
  simp only [headsOf]
  rw [range_succ_map_getD, range_succ_map_getD, range_succ_map_getD]
  cases mask with
  | none =>
      rw [attention_length_none]
      simp [linearF]
  | some m =>
      rw [attention_length_some]
      rw [hm m rfl]
      simp [linearF]

/-- Batch version, no mask: the forward output shape is the query
shape. -/
theorem mha_forward_shape_none (expF : ℚ → ℚ) (sqrtF : Nat → ℚ)
    (dropout : Option (ℚ → ℚ)) (h d_k D : Nat) (hh : h ≠ 0)
    (Wq : Mat) (bq : Vec) (Wk : Mat) (bk : Vec) (Wv : Mat) (bv : Vec)
    (Wo : Mat) (bo : Vec) (hWo : Wo.length = D) (hbo : bo.length = D) :
    ∀ (query key value : Tensor3),
      key.length = query.length → value.length = query.length →
      (∀ ex ∈ query, ∀ r ∈ ex, r.length = D) →
      tensorShape (MultiHeadedAttention.forward expF sqrtF dropout h d_k Wq bq
          Wk bk Wv bv Wo bo query key value none)
        = tensorShape query := by
  intro query
  induction query with
  | nil =>
      intro key value _ _ _
      rfl
  | cons q qs ih =>
      intro key value hk hv hq
      cases key with
      | nil => simp at hk
      | cons k ks =>
          cases value with
          | nil => simp at hv
          | cons v vs =>
              have htail := ih ks vs (by simpa using hk) (by simpa using hv)
                (fun ex hex => hq ex (by simp [hex]))
              simp only [MultiHeadedAttention.forward] at htail
              simp only [MultiHeadedAttention.forward, zipWith3, tensorShape,
                List.map_cons] at htail ⊢
              rw [htail]
              rw [forwardOne_shape expF sqrtF dropout h d_k D hh Wq bq Wk bk
                Wv bv Wo bo hWo hbo q k v none (hq q (by simp))
                (fun m hm => by cases hm)]

/-- Batch version, with mask: the forward output shape is the query
shape, given a mask with one entry of matching row count per
example. -/
theorem mha_forward_shape_some (expF : ℚ → ℚ) (sqrtF : Nat → ℚ)
    (dropout : Option (ℚ → ℚ)) (h d_k D : Nat) (hh : h ≠ 0)
    (Wq : Mat) (bq : Vec) (Wk : Mat) (bk : Vec) (Wv : Mat) (bv : Vec)
    (Wo : Mat) (bo : Vec) (hWo : Wo.length = D) (hbo : bo.length = D) :
    ∀ (query key value : Tensor3) (ms : List (List (List Bool))),
      key.length = query.length → value.length = query.length →
      (∀ ex ∈ query, ∀ r ∈ ex, r.length = D) →
      List.Forall₂
        (fun (m : List (List Bool)) (ex : List (List ℚ)) =>
          m.length = ex.length) ms query →
      tensorShape (MultiHeadedAttention.forward expF sqrtF dropout h d_k Wq bq
          Wk bk Wv bv Wo bo query key value (some ms))
        = tensorShape query := by
  intro query
  induction query with
  | nil =>
      intro key value ms _ _ _ hf
      cases hf
      rfl
  | cons q qs ih =>
      intro key value ms hk hv hq hf
      cases hf with
      | cons hrel htailf =>
          cases key with
          | nil => simp at hk
          | cons k ks =>
              cases value with
              | nil => simp at hv
              | cons v vs =>
                  have htail := ih ks vs _ (by simpa using hk)
                    (by simpa using hv)
                    (fun ex hex => hq ex (by simp [hex])) htailf
                  simp only [MultiHeadedAttention.forward] at htail
                  simp only [MultiHeadedAttention.forward, zipWith4,
                    tensorShape, List.map_cons] at htail ⊢
                  rw [htail]
                  rw [forwardOne_shape expF sqrtF dropout h d_k D hh Wq bq Wk
                    bk Wv bv Wo bo hWo hbo q k v _ (hq q (by simp))
                    (fun m2 hm2 => by cases hm2; exact hrel)]

/-- C6: for valid `(D, H)` with `D % H = 0` (and `H` nonzero, since the
Python `%` with `h = 0` already raises), `MultiHeadedAttention`
constructs successfully and its forward output has exactly the shape of
its input query tensor — per example, the query's timestep count and row
widths; and constructing with `D` not divisible by `H` is a
construction-time fatal error (the assertion fails), so under the
precondition the error branch is unreachable. -/
theorem multi_head_attention_shape_preserved
    (D H : Nat) (expF : ℚ → ℚ) (sqrtF : Nat → ℚ) (dropout : Option (ℚ → ℚ))
    (Wq : Mat) (bq : Vec) (Wk : Mat) (bk : Vec) (Wv : Mat) (bv : Vec)
    (Wo : Mat) (bo : Vec) (query key value : Tensor3)
    (mask : Option (List (List (List Bool))))
    (hH : H ≠ 0) (hdiv : D % H = 0)
    (hWo : Wo.length = D) (hbo : bo.length = D)
    (hk : key.length = query.length) (hv : value.length = query.length)
    (hq : ∀ ex ∈ query, ∀ r ∈ ex, r.length = D)
    (hmask : ∀ ms, mask = some ms →
        List.Forall₂
          (fun (m : List (List Bool)) (ex : List (List ℚ)) =>
            m.length = ex.length) ms query) :
    (MultiHeadedAttention.construct H D).isSome = true
    ∧ tensorShape (MultiHeadedAttention.forward expF sqrtF dropout H (D / H)
          Wq bq Wk bk Wv bv Wo bo query key value mask)
        = tensorShape query
    ∧ ∀ D2 H2 : Nat, D2 % H2 ≠ 0 →
        MultiHeadedAttention.construct H2 D2 = none := by
  refine ⟨?_, ?_, ?_⟩
  · simp [MultiHeadedAttention.construct, hH, hdiv]
  · cases mask with
    | none =>
        exact mha_forward_shape_none expF sqrtF dropout H (D / H) D hH Wq bq
          Wk bk Wv bv Wo bo hWo hbo query key value hk hv hq
    | some ms =>
        exact mha_forward_shape_some expF sqrtF dropout H (D / H) D hH Wq bq
          Wk bk Wv bv Wo bo hWo hbo query key value ms hk hv hq
          (hmask ms rfl)
  · intro D2 H2 hne
    by_cases hz : H2 = 0
    · simp [MultiHeadedAttention.construct, hz]
    · simp [MultiHeadedAttention.construct, hz, hne]

/-- C6 witness: `D = 2`, `H = 1`, a one-example one-position batch with
a matching mask. -/
theorem multi_head_attention_shape_preserved_witness :
    (MultiHeadedAttention.construct 1 2).isSome = true
    ∧ tensorShape (MultiHeadedAttention.forward (fun _ => 1) (fun _ => 1)
          none 1 (2 / 1) [[1, 0], [0, 1]] [0, 0] [[1, 0], [0, 1]] [0, 0]
          [[1, 0], [0, 1]] [0, 0] [[1, 0], [0, 1]] [0, 0]
          [[[1, 2]]] [[[3, 4]]] [[[5, 6]]] (some [[[true]]]))
        = tensorShape [[[1, 2]]]
    ∧ ∀ D2 H2 : Nat, D2 % H2 ≠ 0 →
        MultiHeadedAttention.construct H2 D2 = none :=
  multi_head_attention_shape_preserved 2 1 (fun _ => 1) (fun _ => 1) none
    [[1, 0], [0, 1]] [0, 0] [[1, 0], [0, 1]] [0, 0] [[1, 0], [0, 1]] [0, 0]
    [[1, 0], [0, 1]] [0, 0] [[[1, 2]]] [[[3, 4]]] [[[5, 6]]]
    (some [[[true]]]) (by decide) (by decide) rfl rfl rfl rfl (by decide)
    (fun ms hms => by
      cases hms
      exact List.Forall₂.cons rfl List.Forall₂.nil)

/-- `attention` from src/transformer_model.py lines 140-150 with the
fill constant of `scores.masked_fill(mask == 0, -1e9)` made a parameter
`fill`, to state what replacing that constant does; at
`fill = -1e9` this is definitionally the `attention` function above. -/
def attentionFill (expF : ℚ → ℚ) (sqrtF : Nat → ℚ) (fill : ℚ)
    (query key value : Mat)
    (mask : Option (List (List Bool)) := none)
    (dropout : Option (ℚ → ℚ) := none) : Mat × Mat :=
  let d_k := (query.headD []).length
  let scores := query.map (fun q => key.map (fun k => dot q k / sqrtF d_k))
  let scores :=
    match mask with
    | none => scores
    | some m =>
        List.zipWith
          (fun srow mrow =>
            List.zipWith
              (fun (s : ℚ) (b : Bool) => if b then s else fill)
              srow mrow)
          scores m
  let p_attn := scores.map (softmaxRow expF)
  let p_attn :=
    match dropout with
    | none => p_attn
    | some d => p_attn.map (fun r => r.map d)
  (matMul p_attn value, p_attn)

/-- When `expF` saturates to 0 below `-T`, filling masked positions with
any constant at or below `-T` gives score rows whose `expF` images
agree. -/
theorem zipWith_fill_map_expF (expF : ℚ → ℚ) (T c c2 : ℚ)
    (hsat : ∀ x : ℚ, x ≤ -T → expF x = 0) (hc : c ≤ -T) (hc2 : c2 ≤ -T) :
    ∀ (srow : List ℚ) (mrow : List Bool),
      (List.zipWith (fun (s : ℚ) (b : Bool) => if b then s else c) srow
          mrow).map expF
        = (List.zipWith (fun (s : ℚ) (b : Bool) => if b then s else c2) srow
            mrow).map expF := by
  intro srow
  induction srow with
  | nil => intro mrow; rfl
  | cons s ss ih =>
      intro mrow
      cases mrow with
      | nil => rfl
      | cons b bs =>
          cases b with
          | true => simp [ih bs]
          | false => simp [ih bs, hsat c hc, hsat c2 hc2]

/-- The softmax of a row depends only on the row's `expF` image. -/
theorem softmaxRow_congr (expF : ℚ → ℚ) (r r2 : Vec)
    (h : r.map expF = r2.map expF) :
    softmaxRow expF r = softmaxRow expF r2 := by
  simp only [softmaxRow]
  rw [h]

/-- Mapping after a zipWith only sees the composite values. -/
theorem map_zipWith_congr {α β γ δ : Type} (g : γ → δ) (f f2 : α → β → γ)
    (h : ∀ a b, g (f a b) = g (f2 a b)) :
    ∀ (l1 : List α) (l2 : List β),
      (List.zipWith f l1 l2).map g = (List.zipWith f2 l1 l2).map g := by
  intro l1
  induction l1 with
  | nil => intro l2; rfl
  | cons a as ih =>
      intro l2
      cases l2 with
      | nil => rfl
      | cons b bs =>
          simp only [List.zipWith_cons_cons, List.map_cons]
          rw [h a b, ih bs]

/-- Under `expF` saturation, any two fill constants at or below the
threshold produce the same attention result. -/
theorem attentionFill_congr (expF : ℚ → ℚ) (sqrtF : Nat → ℚ) (T c c2 : ℚ)
    (hsat : ∀ x : ℚ, x ≤ -T → expF x = 0) (hc : c ≤ -T) (hc2 : c2 ≤ -T)
    (query key value : Mat) (m : List (List Bool))
    (dropout : Option (ℚ → ℚ)) :
    attentionFill expF sqrtF c query key value (some m) dropout
      = attentionFill expF sqrtF c2 query key value (some m) dropout := by
  have hp : ∀ (scores : Mat),
      (List.zipWith
          (fun srow mrow =>
            List.zipWith (fun (s : ℚ) (b : Bool) => if b then s else c) srow
              mrow)
          scores m).map (softmaxRow expF)
        = (List.zipWith
            (fun srow mrow =>
              List.zipWith (fun (s : ℚ) (b : Bool) => if b then s else c2)
                srow mrow)
            scores m).map (softmaxRow expF) := by
    intro scores
    exact map_zipWith_congr (softmaxRow expF) _ _
      (fun srow mrow =>
        softmaxRow_congr expF _ _
          (zipWith_fill_map_expF expF T c c2 hsat hc hc2 srow mrow))
      scores m
  cases dropout with
  | none =>
      simp only [attentionFill]
      rw [hp]
  | some d =>
      simp only [attentionFill]
      rw [hp]

/-- C7: for every query, key, value, every 0/1 mask and optional
dropout, replacing the fill constant used for masked-out score positions
by any other constant below the saturation threshold of `expF` (the
embedding's abstract exponential — the program's float `exp`, which
underflows to exactly 0 on large-negative inputs, the claim's "monotonic
saturation") yields the identical post-softmax attention distribution
and hence the identical attention output that the source's `-1e9` fill
produces. -/
theorem attention_fill_constant_saturation (expF : ℚ → ℚ)
    (sqrtF : Nat → ℚ) (T : ℚ) (query key value : Mat)
    (m : List (List Bool)) (dropout : Option (ℚ → ℚ)) (c : ℚ)
    (hsat : ∀ x : ℚ, x ≤ -T → expF x = 0)
    (hfill : c ≤ -T) (horig : -(1000000000 : ℚ) ≤ -T) :
    (attentionFill expF sqrtF c query key value (some m) dropout).2
      = (attention expF sqrtF query key value (some m) dropout).2
    ∧ (attentionFill expF sqrtF c query key value (some m) dropout).1
      = (attention expF sqrtF query key value (some m) dropout).1 := by
  have hlink :
      attentionFill expF sqrtF (-(1000000000 : ℚ)) query key value (some m)
        dropout
        = attention expF sqrtF query key value (some m) dropout := rfl
  have h := attentionFill_congr expF sqrtF T c (-(1000000000 : ℚ)) hsat hfill
    horig query key value m dropout
  rw [hlink] at h
  exact ⟨congrArg Prod.snd h, congrArg Prod.fst h⟩

/-- C7 witness: a saturating `expF` with threshold -100, fill constant
-2e9 against the source's -1e9, on a concrete partially masked
query/key/value. -/
theorem attention_fill_constant_saturation_witness :
    (attentionFill (fun x => if x ≤ -100 then 0 else 1) (fun _ => 1)
        (-(2000000000 : ℚ)) [[1]] [[1], [2]] [[3], [4]]
        (some [[true, false]]) none).2
      = (attention (fun x => if x ≤ -100 then 0 else 1) (fun _ => 1)
          [[1]] [[1], [2]] [[3], [4]] (some [[true, false]]) none).2
    ∧ (attentionFill (fun x => if x ≤ -100 then 0 else 1) (fun _ => 1)
        (-(2000000000 : ℚ)) [[1]] [[1], [2]] [[3], [4]]
        (some [[true, false]]) none).1
      = (attention (fun x => if x ≤ -100 then 0 else 1) (fun _ => 1)
          [[1]] [[1], [2]] [[3], [4]] (some [[true, false]]) none).1 :=
  attention_fill_constant_saturation (fun x => if x ≤ -100 then 0 else 1)
    (fun _ => 1) 100 [[1]] [[1], [2]] [[3], [4]] [[true, false]] none
    (-(2000000000 : ℚ)) (fun x hx => if_pos hx) (by norm_num) (by norm_num)
